import Mathlib

/-!
Shallow embedding of the CodePolice static-analysis tool (src/core/fixer.py,
src/core/rule_engine.py, src/rules/*.py, src/cli.py, src/models/copilot_proxy.py)
for checking its natural-language specification.
-/

namespace CodePolice

/-- Fragment of the libcst concrete-syntax-tree node hierarchy used by the
rules in src/rules/.  Source-position metadata (`lineno`, `col`) is carried on
the node kinds whose positions the rules report.  libcst itself is an external
dependency; this models the node shapes the repository's code pattern-matches
on. -/
inductive Node where
  | Module (body : List Node)
  | Assign (lineno col : Nat) (targets : List Node) (value : Node)
  | AssignTarget (target : Node)
  | Name (value : String)
  | SimpleString (value : String)
  | Integer (value : String)
  | Import (lineno col : Nat) (names : List Node)
  | ImportFrom (lineno col : Nat) (importedModule : Option Node) (names : List Node)
  | ImportAlias (name : Node) (asname : Option Node)
  | AsName (name : Node)
  | Call (lineno col : Nat) (func : Node) (args : List Node)
  | FunctionDef (lineno col : Nat) (name : Node) (body : List Node)
  | ListComp (lineno col : Nat) (element : Node)
deriving Repr

mutual

/-- Depth-first pre-order enumeration of all nodes of a tree: this is the
visit order of `libcst.matchers.findall` (document order, parent before
children, children left to right). -/
def Node.preorder : Node → List Node
  | .Module body => .Module body :: preorderList body
  | .Assign l c ts v => .Assign l c ts v :: (preorderList ts ++ Node.preorder v)
  | .AssignTarget t => .AssignTarget t :: Node.preorder t
  | .Name v => [.Name v]
  | .SimpleString v => [.SimpleString v]
  | .Integer v => [.Integer v]
  | .Import l c ns => .Import l c ns :: preorderList ns
  | .ImportFrom l c mo ns => .ImportFrom l c mo ns :: (preorderOpt mo ++ preorderList ns)
  | .ImportAlias nm an => .ImportAlias nm an :: (Node.preorder nm ++ preorderOpt an)
  | .AsName nm => .AsName nm :: Node.preorder nm
  | .Call l c f args => .Call l c f args :: (Node.preorder f ++ preorderList args)
  | .FunctionDef l c nm body => .FunctionDef l c nm body :: (Node.preorder nm ++ preorderList body)
  | .ListComp l c e => .ListComp l c e :: Node.preorder e

/-- Pre-order enumeration of a list of sibling nodes, left to right. -/
def preorderList : List Node → List Node
  | [] => []
  | n :: rest => Node.preorder n ++ preorderList rest

/-- Pre-order enumeration of an optional child node. -/
def preorderOpt : Option Node → List Node
  | none => []
  | some n => Node.preorder n

end

/-- `libcst.matchers.findall(tree, pattern)`: all nodes of the tree satisfying
the pattern, in document order. -/
def findall (tree : Node) (pattern : Node → Bool) : List Node :=
  tree.preorder.filter pattern

example :
    findall (.Module [.Import 1 0 [.ImportAlias (.Name "os") none]])
      (fun n => match n with | .Name _ => true | _ => false)
      = [.Name "os"] := rfl

/-- Whether the first character list is a prefix of the second. -/
def charsPrefix : List Char → List Char → Bool
  | [], _ => true
  | _ :: _, [] => false
  | a :: as, b :: bs => a == b && charsPrefix as bs

/-- Whether the first character list occurs as a contiguous sublist of the
second. -/
def charsContain (sub : List Char) : List Char → Bool
  | [] => charsPrefix sub []
  | b :: bs => charsPrefix sub (b :: bs) || charsContain sub bs

/-- Python substring containment `sub in s`. -/
def pyIn (sub s : String) : Bool :=
  charsContain sub.data s.data

example : pyIn "password" "my_password_x" = true := by decide
example : pyIn "os.getenv" "x = 1" = false := by decide

/-- An issue dictionary as built by the rules in src/rules/ and consumed by
`CodeFixer.apply_fixes` and the CLI report generators.  `fix_type = none`
models a dict without the `fix_type` key; `node = none` a dict without the
`node` key. -/
structure Issue where
  rule : String
  message : String
  line : Nat
  column : Nat
  severity : String
  suggestion : String
  fix_type : Option String := none
  node : Option Node := none

/-- State of a `CodeFixer` instance (src/core/fixer.py): the current module
and the list of applied fixes (`self.changes`). -/
structure CodeFixer where
  module : Node
  changes : List Issue

/-- `CodeFixer._fix_remove_node` (src/core/fixer.py lines 41-50): stub, returns
`self.module` unchanged. -/
def CodeFixer._fix_remove_node (self : CodeFixer) (_issue : Issue) : Node :=
  self.module

/-- `CodeFixer._fix_replace_node` (src/core/fixer.py lines 52-61): stub, returns
`self.module` unchanged. -/
def CodeFixer._fix_replace_node (self : CodeFixer) (_issue : Issue) : Node :=
  self.module

/-- `CodeFixer._fix_insert_code` (src/core/fixer.py lines 63-72): stub, returns
`self.module` unchanged. -/
def CodeFixer._fix_insert_code (self : CodeFixer) (_issue : Issue) : Node :=
  self.module

/-- The dynamic method lookup `getattr(self, f"_fix_{issue['fix_type']}", None)`
in `apply_fixes` (src/core/fixer.py line 31).  The only `_fix_*` methods defined
on `CodeFixer` are `_fix_remove_node`, `_fix_replace_node` and
`_fix_insert_code`; every other fix type resolves to `None`.  In particular the
fix types the rules actually emit (`remove`, `replace`, `rename`, `refactor`)
all resolve to `None`. -/
def fixMethodFor (fix_type : String) : Option (CodeFixer → Issue → Node) :=
  if fix_type == "remove_node" then some CodeFixer._fix_remove_node
  else if fix_type == "replace_node" then some CodeFixer._fix_replace_node
  else if fix_type == "insert_code" then some CodeFixer._fix_insert_code
  else none

/-- One iteration of the loop in `CodeFixer.apply_fixes` (src/core/fixer.py
lines 27-37), acting on the pair (fixer state, console messages printed so
far).  An issue without a `fix_type` key is skipped (`continue`); an issue
whose fix type has no `_fix_*` method is skipped silently; otherwise the
method is invoked, `self.module` is reassigned to its result and the issue is
appended to `self.changes`.  The `except` branch would print a
`Failed to fix ...` message, but all three `_fix_*` methods are total, so no
message is ever produced. -/
def applyFixesStep (acc : CodeFixer × List String) (issue : Issue) :
    CodeFixer × List String :=
  match issue.fix_type with
  | none => acc
  | some ft =>
    match fixMethodFor ft with
    | none => acc
    | some fm =>
      ({ module := fm acc.1 issue, changes := acc.1.changes ++ [issue] }, acc.2)

/-- `CodeFixer.apply_fixes` (src/core/fixer.py lines 19-39).  Python mutates
`self`; the embedding returns the final fixer state together with the list of
messages printed to the console (the only channel on which a skipped fix could
be surfaced). -/
def CodeFixer.apply_fixes (self : CodeFixer) (issues : List Issue) :
    CodeFixer × List String :=
  issues.foldl applyFixesStep (self, [])

/-- `CodeFixer.generate_diff` (src/core/fixer.py lines 74-81): stub, returns the
constant string. -/
def CodeFixer.generate_diff (_self : CodeFixer) : String :=
  "No changes applied"

/-- Python `str.lower()`. -/
def pyLower (s : String) : String :=
  String.mk (s.data.map Char.toLower)

/-- `getattr(node, 'value', '')` for a node expected to be a `Name`. -/
def nameValueOf : Node → String
  | .Name v => v
  | _ => ""

/-- `lineno` attribute read by the rules when building an issue dict. -/
def linenoOf : Node → Nat
  | .Assign l _ _ _ => l
  | .Import l _ _ => l
  | .ImportFrom l _ _ _ => l
  | .Call l _ _ _ => l
  | .FunctionDef l _ _ _ => l
  | .ListComp l _ _ => l
  | _ => 0

/-- `col_offset` attribute read by the rules when building an issue dict. -/
def colOf : Node → Nat
  | .Assign _ c _ _ => c
  | .Import _ c _ => c
  | .ImportFrom _ c _ _ => c
  | .Call _ c _ _ => c
  | .FunctionDef _ c _ _ => c
  | .ListComp _ c _ => c
  | _ => 0

/-- `self.secrets_keywords` of `HardcodedSecretRule` (src/rules/security.py
line 19). -/
def secrets_keywords : List String :=
  ["password", "secret", "token", "key"]

/-- `getattr(n.targets[0].target, 'value', '')` — the text of the first
assignment target (src/rules/security.py line 28, src/rules/convention.py
line 37). -/
def assignTarget0Value : Node → String
  | .Assign _ _ (.AssignTarget t :: _) _ => nameValueOf t
  | _ => ""

/-- The `secret_matcher` of `HardcodedSecretRule.apply` (src/rules/security.py
lines 25-30): an `Assign` whose value is a `SimpleString` and whose first
target's lowercased text contains one of the secret keywords. -/
def secretMatcher (n : Node) : Bool :=
  (match n with
   | .Assign _ _ _ (.SimpleString _) => true
   | _ => false)
  && secrets_keywords.any (fun kw => pyIn kw (pyLower (assignTarget0Value n)))

/-- `HardcodedSecretRule.apply` (src/rules/security.py lines 21-45). -/
def HardcodedSecretRule.apply (node : Node) : List Issue :=
  (findall node secretMatcher).map (fun mt =>
    { rule := "hardcoded_secret"
      message := "Hardcoded secret detected in " ++ assignTarget0Value mt
      line := linenoOf mt
      column := colOf mt
      severity := "error"
      fix_type := some "replace"
      suggestion := "Use environment variables instead (os.getenv)"
      node := some mt })

/-- The pattern `m.Import() | m.ImportFrom()` (src/rules/convention.py
line 85). -/
def isImportNode : Node → Bool
  | .Import _ _ _ => true
  | .ImportFrom _ _ _ _ => true
  | _ => false

/-- The `names` field of an import statement node. -/
def importNames : Node → List Node
  | .Import _ _ ns => ns
  | .ImportFrom _ _ _ ns => ns
  | _ => []

/-- `name.asname.name.value if name.asname else name.name.value` — the alias
under which one `ImportAlias` binds (src/rules/convention.py lines 88, 94). -/
def aliasKey : Node → String
  | .ImportAlias _ (some (.AsName a)) => nameValueOf a
  | .ImportAlias nm none => nameValueOf nm
  | _ => ""

/-- Python dict assignment `imports[alias] = imp`: insertion order is kept, a
repeated key overwrites the value in place. -/
def upsert (m : List (String × Node)) (k : String) (v : Node) :
    List (String × Node) :=
  if m.any (fun p => p.1 == k) then
    m.map (fun p => if p.1 == k then (k, v) else p)
  else m ++ [(k, v)]

/-- The `imports` dict built by `UnusedImportRule.apply` (src/rules/convention.py
lines 85-95): alias name → import statement node. -/
def importsOf (node : Node) : List (String × Node) :=
  (findall node isImportNode).foldl
    (fun acc imp => (importNames imp).foldl
      (fun acc2 nm => upsert acc2 (aliasKey nm) imp) acc)
    []

/-- The pattern `m.Name()`. -/
def isNameNode : Node → Bool
  | .Name _ => true
  | _ => false

/-- `UnusedImportRule.apply` (src/rules/convention.py lines 77-115): collect
the imports, collect every `Name` node in the whole tree as a "used" name, and
report the import aliases that are not in the used set.  Note that the `Name`
nodes inside the import statements themselves are collected as used names. -/
def UnusedImportRule.apply (node : Node) : List Issue :=
  let imports := importsOf node
  let used_names := (findall node isNameNode).map nameValueOf
  imports.foldl (fun issues p =>
    if used_names.contains p.1 then issues
    else issues ++ [{
      rule := "unused_import"
      message := "Unused import: " ++ p.1
      line := linenoOf p.2
      column := colOf p.2
      severity := "warning"
      fix_type := some "remove"
      suggestion := "Remove this unused import"
      node := some p.2 }]) []

/-- `NamingConventionRule._is_snake_case` (src/rules/convention.py lines 61-64):
full match of the regex `[a-z_][a-z0-9_]*`. -/
def _is_snake_case (name : String) : Bool :=
  match name.data with
  | [] => false
  | c :: rest =>
    (c.isLower || c == '_') &&
    rest.all (fun ch => ch.isLower || ch.isDigit || ch == '_')

/-- Helper for `_to_snake_case`: every character after the first is lowercased
and gets an underscore inserted before it when it was uppercase. -/
def toSnakeTail : List Char → List Char
  | [] => []
  | c :: rest =>
    (if c.isUpper then ['_', c.toLower] else [c.toLower]) ++ toSnakeTail rest

/-- `NamingConventionRule._to_snake_case` (src/rules/convention.py lines 66-69):
insert an underscore before every non-initial uppercase letter, then lowercase
the whole string. -/
def _to_snake_case (name : String) : String :=
  match name.data with
  | [] => ""
  | c :: rest => String.mk (c.toLower :: toSnakeTail rest)

/-- The `var_matcher` of `NamingConventionRule.apply` (src/rules/convention.py
lines 25-27): an `Assign` with exactly one `AssignTarget` holding a `Name`
that is not snake_case. -/
def namingVarMatcher : Node → Bool
  | .Assign _ _ [.AssignTarget (.Name v)] _ => !(_is_snake_case v)
  | _ => false

/-- The `func_matcher` of `NamingConventionRule.apply` (src/rules/convention.py
lines 29-31). -/
def namingFuncMatcher : Node → Bool
  | .FunctionDef _ _ (.Name v) _ => !(_is_snake_case v)
  | _ => false

/-- `match.name.value` of a `FunctionDef`. -/
def funcNameValue : Node → String
  | .FunctionDef _ _ nm _ => nameValueOf nm
  | _ => ""

/-- `NamingConventionRule.apply` (src/rules/convention.py lines 21-59):
variable findings first, then function findings, each in document order. -/
def NamingConventionRule.apply (node : Node) : List Issue :=
  ((findall node namingVarMatcher).map (fun mt =>
    { rule := "naming_convention"
      message := "Variable name \x27" ++ assignTarget0Value mt ++
        "\x27 should be snake_case"
      line := linenoOf mt
      column := colOf mt
      severity := "warning"
      fix_type := some "rename"
      suggestion := _to_snake_case (assignTarget0Value mt)
      node := some mt })) ++
  ((findall node namingFuncMatcher).map (fun mt =>
    { rule := "naming_convention"
      message := "Function name \x27" ++ funcNameValue mt ++
        "\x27 should be snake_case"
      line := linenoOf mt
      column := colOf mt
      severity := "warning"
      fix_type := some "rename"
      suggestion := _to_snake_case (funcNameValue mt)
      node := some mt }))

/-- The `repeated_call_matcher` of `RepeatedCalculationRule.apply`
(src/rules/performance.py lines 69-71): a `ListComp` whose element is a
`Call`. -/
def repeatedCallMatcher : Node → Bool
  | .ListComp _ _ (.Call _ _ _ _) => true
  | _ => false

/-- `getattr(match.element.func, 'value', None)` (src/rules/performance.py
line 75). -/
def listCompFuncName : Node → Option String
  | .ListComp _ _ (.Call _ _ (.Name v) _) => some v
  | _ => none

/-- `RepeatedCalculationRule.apply` (src/rules/performance.py lines 65-88);
`if func_name:` is Python truthiness, so `None` and the empty string are both
skipped. -/
def RepeatedCalculationRule.apply (node : Node) : List Issue :=
  (findall node repeatedCallMatcher).foldl (fun issues mt =>
    match listCompFuncName mt with
    | none => issues
    | some v =>
      if v == "" then issues
      else issues ++ [{
        rule := "repeated_calculation"
        message := "Repeated call to " ++ v ++ " in list comprehension"
        line := linenoOf mt
        column := colOf mt
        severity := "warning"
        fix_type := some "refactor"
        suggestion := "Move the calculation outside the loop"
        node := some mt }]) []

/-- Rendering of an expression node back to source text.  Models libcst's
`Module.code` serialization (an external collaborator of src/) for the node
fragment embedded here; the spec's round-trip law says it reproduces the
original source text of an untouched tree. -/
def exprCode : Node → String
  | .Name v => v
  | .SimpleString v => v
  | .Integer v => v
  | _ => ""

/-- Rendering of one `ImportAlias` back to source text. -/
def aliasCode : Node → String
  | .ImportAlias (.Name v) none => v
  | .ImportAlias (.Name v) (some (.AsName (.Name a))) => v ++ " as " ++ a
  | _ => ""

/-- Rendering of one statement back to its source line. -/
def stmtCode : Node → String
  | .Assign _ _ [.AssignTarget t] v => exprCode t ++ " = " ++ exprCode v
  | .Import _ _ ns => "import " ++ String.intercalate ", " (ns.map aliasCode)
  | _ => ""

/-- The source lines of a serialized module, in order. -/
def moduleLines : Node → List String
  | .Module body => body.map stmtCode
  | _ => []

/-- `module.code`: the full serialized source text. -/
def moduleCode (n : Node) : String :=
  String.intercalate "\n" (moduleLines n)

/-- Python exceptions that the embedded code can raise. -/
inductive PyErr where
  | nameError (name : String)
  | attributeError (name : String)
deriving Repr, DecidableEq

/-- One rule's configuration dict as read from `codepolice.yaml` by
`RuleEngine._load_rules` (src/core/rule_engine.py lines 22-28). -/
structure RuleCfg where
  node_type : Option String := none
  message : String := ""
  level : Option String := none
  options : List (String × String) := []
  fix : Option String := none

/-- The loop body chain of `RuleEngine.apply_rules` (src/core/rule_engine.py
lines 30-44).  A rule config without a `node_type` key is skipped; for any
rule config that has one, line 41 evaluates `getattr(cst, ...)` — but the
name `cst` is never bound in rule_engine.py (the module imports only `yaml`,
`typing`, `pathlib` and `libcst.CSTNode`), so a `NameError` is raised.
`apply_rules` wraps nothing in `try`/`except`, so the error propagates and no
later rule is processed. -/
def applyRulesGo : List (String × RuleCfg) → List Issue →
    Except PyErr (List Issue)
  | [], acc => .ok acc
  | (_, cfg) :: rest, acc =>
    match cfg.node_type with
    | none => applyRulesGo rest acc
    | some _ => .error (.nameError "cst")

/-- `RuleEngine.apply_rules` (src/core/rule_engine.py lines 30-44) run over a
registered rule config mapping, modelled with the exception channel made
explicit: `Except.error` is an uncaught Python exception propagating to the
caller. -/
def RuleEngine.apply_rules (_node : Node) (rules : List (String × RuleCfg)) :
    Except PyErr (List Issue) :=
  applyRulesGo rules []

/-- The rendering of one issue by `CLI._generate_text_report` (src/cli.py
lines 286-295): colored rule header with location, message, suggestion, and a
50-dash separator. -/
def renderIssue (i : Issue) : String :=
  let location := toString i.line ++ ":" ++ toString i.column
  let color := if i.severity == "error" then "\x1b[91m" else "\x1b[93m"
  let reset := "\x1b[0m"
  color ++ i.rule ++ " (" ++ location ++ ")" ++ reset ++ "\n" ++
  "  Message: " ++ i.message ++ "\n" ++
  "  Suggestion: " ++ i.suggestion ++ "\n" ++
  String.mk (List.replicate 50 '-') ++ "\n"

/-- `CLI._generate_text_report` (src/cli.py lines 282-297): starts from the
empty string and appends every issue's rendering in order. -/
def CLI._generate_text_report (issues : List Issue) : String :=
  issues.foldl (fun out i => out ++ renderIssue i) ""

/-- The tail of `CLI._run_check` (src/cli.py lines 154-157): the collected
issues are rendered and output (default text format), then the command exits
with `1 if issues else 0`.  Returns (output, exit status). -/
def CLI._run_check (issues : List Issue) : String × Nat :=
  (CLI._generate_text_report issues, if issues.isEmpty then 0 else 1)

/-- The `fix` subcommand arguments (src/cli.py lines 72-75): `--apply` is an
opt-in flag, absent by default, and `--only` optionally restricts the rule. -/
structure FixArgs where
  apply : Bool
  only : Option String := none

/-- One input file of a `fix` run: its path, parsed module, and the issues the
rule engine produced for it. -/
structure FileEntry where
  path : String
  module : Node
  issues : List Issue

/-- The per-file loop body of `CLI._run_fix` (src/cli.py lines 175-201),
accumulating the `(path, text)` file writes performed.  A file with no issues
is skipped; otherwise the issues are optionally filtered by `--only`, a
`CodeFixer` is run, the diff is printed, and the serialized fixed module is
written back to the file path only when `args.apply` is set. -/
def runFixFile (args : FixArgs) (writes : List (String × String))
    (f : FileEntry) : List (String × String) :=
  if f.issues.isEmpty then writes
  else
    let issues := match args.only with
      | some r => f.issues.filter (fun i => i.rule == r)
      | none => f.issues
    let fixer : CodeFixer := { module := f.module, changes := [] }
    let res := fixer.apply_fixes issues
    if args.apply then writes ++ [(f.path, moduleCode res.1.module)]
    else writes

/-- `CLI._run_fix` (src/cli.py lines 159-202): returns the exit status and the
list of `(path, text)` writes to disk.  A missing input path logs an error and
returns 1 without writing; otherwise every discovered file is processed and
the command returns 0. -/
def CLI._run_fix (args : FixArgs) (path_exists : Bool)
    (files : List FileEntry) : Nat × List (String × String) :=
  if path_exists then (0, files.foldl (runFixFile args) [])
  else (1, [])

/-- An HTTP response as consumed by `CopilotFixer.get_suggestion`
(src/models/copilot_proxy.py lines 159-165): status code, body text, and the
`choices[0].text` field of the parsed JSON body. -/
structure HttpResponse where
  status_code : Nat
  text : String := ""
  choice_text : String := ""

/-- The environment of one `CopilotFixer.get_suggestion` call: the
configuration flags read by the guards, plus the two fallible external
collaborators (the cache file read and the `requests.post` network call),
each of which may raise (`Except.error` models a raised exception).  The
rate limiter's verdict is the boolean outcome of
`CopilotRateLimiter.allow_request`. -/
structure CopilotEnv where
  enabled : Bool
  requests_available : Bool
  auth_token : Option String
  cache_read : String → Except String (Option (Nat × String))
  now : Nat
  rate_allow : Bool
  post : String → Except String HttpResponse

/-- Python falsiness of `self.config.auth_token` (src/models/copilot_proxy.py
line 128): `None` and the empty string are both falsy. -/
def tokenFalsy : Option String → Bool
  | none => true
  | some t => t == ""

/-- `CopilotFixer._get_cache_key` (src/models/copilot_proxy.py lines 77-79):
a sha256 hex digest of the snippet.  The digest value never influences
control flow, so the hash itself is modelled as the identity keying. -/
def _get_cache_key (code_snippet : String) : String :=
  code_snippet

/-- `CopilotFixer._load_from_cache` (src/models/copilot_proxy.py lines 81-97):
a missing cache file yields `None`, a raised exception while reading is caught
and yields `None`, and an entry older than 24 hours (86400 s) yields `None`. -/
def _load_from_cache (env : CopilotEnv) (key : String) : Option String :=
  match env.cache_read key with
  | .error _ => none
  | .ok none => none
  | .ok (some entry) =>
    if env.now - entry.1 < 86400 then some entry.2 else none

/-- The `if cached:` truthiness test (src/models/copilot_proxy.py line 135):
a cached empty string is falsy and does not count as a hit. -/
def cachedTruthy (env : CopilotEnv) (code_snippet : String) : Option String :=
  match _load_from_cache env (_get_cache_key code_snippet) with
  | none => none
  | some c => if c == "" then none else some c

/-- Leading-whitespace removal on a character list. -/
def dropLeadingWs : List Char → List Char
  | [] => []
  | c :: rest => if c.isWhitespace then dropLeadingWs rest else c :: rest

/-- Python `str.strip()`: remove leading and trailing whitespace. -/
def pyStrip (s : String) : String :=
  String.mk ((dropLeadingWs (dropLeadingWs s.data).reverse).reverse)

/-- The characters before the first newline: `s.split('\n')[0]`. -/
def firstLineChars : List Char → List Char
  | [] => []
  | c :: rest => if c == '\n' then [] else c :: firstLineChars rest

/-- `CopilotFixer._fallback_suggestion` (src/models/copilot_proxy.py
lines 183-198): rule-based local suggestion derived from the first line of
the stripped snippet (`lines = code_snippet.strip().split('\n')`; only
`lines[0]` is consulted). -/
def _fallback_suggestion (code_snippet : String) : String :=
  let line0 := String.mk (firstLineChars (pyStrip code_snippet).data)
  if pyIn "password = " line0 && pyIn "\x27" line0 then
    "import os\npassword = os.getenv(\x27DB_PASSWORD\x27)"
  else if pyIn "eval(" line0 then
    "import ast\nresult = ast.literal_eval(input_str)"
  else
    "# Consider refactoring this code for better security and performance"

/-- `CopilotFixer._build_prompt` (src/models/copilot_proxy.py lines 171-181);
the optional context dict is modelled as a (possibly empty, hence falsy) list
of key/value pairs. -/
def _build_prompt (code_snippet : String) (context : List (String × String)) :
    String :=
  let prompt := "Please fix this Python code:\n" ++ code_snippet ++ "\n\n"
  let prompt := if context.isEmpty then prompt
    else prompt ++ "Context:\n" ++
      String.join (context.map (fun kv => kv.1 ++ ": " ++ kv.2 ++ "\n"))
  prompt ++ "\nFixed version:\n"

/-- `CopilotFixer.get_suggestion` (src/models/copilot_proxy.py lines 112-169).
Every fallible step is either guarded or wrapped in `try`/`except` in the
source, so the call always produces a string: disabled configuration, missing
`requests` library, falsy auth token, rate-limit refusal, a raised network
exception and a non-200 response all return the local fallback suggestion; a
fresh truthy cache entry or a 200 response return that text.  (The
`_save_to_cache` side effect on the 200 path catches its own exceptions and
does not affect the returned value.) -/
def CopilotFixer.get_suggestion (env : CopilotEnv) (code_snippet : String)
    (context : List (String × String)) : String :=
  if !env.enabled then _fallback_suggestion code_snippet
  else if !env.requests_available then _fallback_suggestion code_snippet
  else if tokenFalsy env.auth_token then _fallback_suggestion code_snippet
  else
    match cachedTruthy env code_snippet with
    | some c => c
    | none =>
      if !env.rate_allow then _fallback_suggestion code_snippet
      else
        match env.post (_build_prompt code_snippet context) with
        | .error _ => _fallback_suggestion code_snippet
        | .ok resp =>
          if resp.status_code == 200 then resp.choice_text
          else _fallback_suggestion code_snippet

/-- The disjunction of the internal error conditions enumerated for
`get_suggestion`: Copilot disabled, `requests` unavailable, no (or empty)
credential, cache miss with the rate limit exceeded, cache miss with a raised
network error, and cache miss with a non-200 API response. -/
def SuggestionErrorCondition (env : CopilotEnv) (code_snippet : String)
    (context : List (String × String)) : Prop :=
  env.enabled = false ∨
  env.requests_available = false ∨
  tokenFalsy env.auth_token = true ∨
  (cachedTruthy env code_snippet = none ∧
    (env.rate_allow = false ∨
     (∃ e, env.post (_build_prompt code_snippet context) = .error e) ∨
     (∃ r, env.post (_build_prompt code_snippet context) = .ok r ∧
       r.status_code ≠ 200)))

/-- Helper: a left fold whose step fixes every accumulator on the elements of
the list leaves the initial accumulator unchanged. -/
theorem foldl_of_step_fixed {α β : Type} (f : α → β → α) (l : List β) (a : α)
    (h : ∀ b ∈ l, ∀ x, f x b = x) : l.foldl f a = a := by
  induction l generalizing a with
  | nil => rfl
  | cons b rest ih =>
    rw [List.foldl_cons, h b (List.mem_cons_self b rest)]
    exact ih a (fun b' hb' => h b' (List.mem_cons_of_mem b hb'))

/-- Helper: one `apply_fixes` loop iteration never changes the module, because
all three `_fix_*` methods return `self.module` unchanged. -/
theorem applyFixesStep_module (acc : CodeFixer × List String) (i : Issue) :
    (applyFixesStep acc i).1.module = acc.1.module := by
  unfold applyFixesStep
  cases i.fix_type with
  | none => rfl
  | some ft =>
    by_cases h1 : ft == "remove_node" <;>
      by_cases h2 : ft == "replace_node" <;>
        by_cases h3 : ft == "insert_code" <;>
          simp [fixMethodFor, h1, h2, h3, CodeFixer._fix_remove_node,
            CodeFixer._fix_replace_node, CodeFixer._fix_insert_code]

/-- Helper: the `apply_fixes` loop never changes the module, whatever the
accumulator. -/
theorem applyFixes_foldl_module (issues : List Issue)
    (acc : CodeFixer × List String) :
    (issues.foldl applyFixesStep acc).1.module = acc.1.module := by
  induction issues generalizing acc with
  | nil => rfl
  | cons i rest ih =>
    rw [List.foldl_cons]
    rw [ih (applyFixesStep acc i), applyFixesStep_module]

/-- C5.  Fix safety: for every module and every list of findings in which no
finding carries a fix directive (`fix_type` absent), `apply_fixes` leaves the
fixer state — in particular the tree — identical to its input, and prints
nothing. -/
theorem apply_fixes_without_directives_identity (fx : CodeFixer)
    (issues : List Issue) (h : ∀ i ∈ issues, i.fix_type = none) :
    fx.apply_fixes issues = (fx, []) := by
  unfold CodeFixer.apply_fixes
  exact foldl_of_step_fixed _ _ _ (fun i hi x => by
    unfold applyFixesStep
    rw [h i hi])

/-- Witness for C5 at a concrete fixer and a concrete directive-free finding
list. -/
theorem apply_fixes_without_directives_identity_witness :
    (CodeFixer.mk (.Module []) []).apply_fixes
        [{ rule := "naming_convention", message := "m", line := 1, column := 0,
           severity := "warning", suggestion := "s" }] =
      (CodeFixer.mk (.Module []) [], []) :=
  apply_fixes_without_directives_identity _ _ (by
    intro i hi
    rw [List.mem_singleton] at hi
    rw [hi])

/-- C9.  The fixer is a stub: `apply_fixes` always returns a module equal to
its input module, each of the three fix handlers returns the stored module
unchanged, and `generate_diff` always returns the constant string
`No changes applied`. -/
theorem fixer_stub_noop (fx : CodeFixer) (issues : List Issue) (i : Issue) :
    (fx.apply_fixes issues).1.module = fx.module ∧
    fx._fix_remove_node i = fx.module ∧
    fx._fix_replace_node i = fx.module ∧
    fx._fix_insert_code i = fx.module ∧
    fx.generate_diff = "No changes applied" :=
  ⟨applyFixes_foldl_module issues (fx, []), rfl, rfl, rfl, rfl⟩

/-- C10.  Every issue whose `fix_type` has no `_fix_<fix_type>` method on
`CodeFixer` is silently skipped by `apply_fixes`: the state (module and
changes list) is unchanged and nothing is printed, so no skipped-fix notice
reaches the caller. -/
theorem unknown_fix_type_silently_skipped (fx : CodeFixer)
    (issues : List Issue)
    (h : ∀ i ∈ issues, ∀ ft, i.fix_type = some ft → fixMethodFor ft = none) :
    fx.apply_fixes issues = (fx, []) := by
  unfold CodeFixer.apply_fixes
  exact foldl_of_step_fixed _ _ _ (fun i hi x => by
    unfold applyFixesStep
    cases hft : i.fix_type with
    | none => rfl
    | some ft => simp [h i hi ft hft])

/-- The tree `BadName = 1`, on which the naming-convention rule fires. -/
def namingTree : Node :=
  .Module [.Assign 1 0 [.AssignTarget (.Name "BadName")] (.Integer "1")]

/-- The `naming_convention` issue emitted for `namingTree`, with fix type
`rename`. -/
def renameIssue : Issue :=
  { rule := "naming_convention"
    message := "Variable name \x27BadName\x27 should be snake_case"
    line := 1
    column := 0
    severity := "warning"
    fix_type := some "rename"
    suggestion := "bad_name"
    node := some (.Assign 1 0 [.AssignTarget (.Name "BadName")] (.Integer "1")) }

/-- The tree `[f() ...]` (a list comprehension whose element is a call), on
which the repeated-calculation rule fires. -/
def perfTree : Node :=
  .Module [.ListComp 1 0 (.Call 1 0 (.Name "f") [])]

/-- The `repeated_calculation` issue emitted for `perfTree`, with fix type
`refactor`. -/
def refactorIssue : Issue :=
  { rule := "repeated_calculation"
    message := "Repeated call to f in list comprehension"
    line := 1
    column := 0
    severity := "warning"
    fix_type := some "refactor"
    suggestion := "Move the calculation outside the loop"
    node := some (.ListComp 1 0 (.Call 1 0 (.Name "f") [])) }

/-- Witness for C10: the naming-convention and performance rules do emit the
fix types `rename` and `refactor`, neither resolves to a `_fix_*` method, and
applying those issues leaves the fixer state unchanged with nothing printed. -/
theorem unknown_fix_type_silently_skipped_witness :
    NamingConventionRule.apply namingTree = [renameIssue] ∧
    RepeatedCalculationRule.apply perfTree = [refactorIssue] ∧
    fixMethodFor "rename" = none ∧
    fixMethodFor "refactor" = none ∧
    (CodeFixer.mk namingTree []).apply_fixes [renameIssue, refactorIssue] =
      (CodeFixer.mk namingTree [], []) :=
  ⟨rfl, rfl, rfl, rfl,
    unknown_fix_type_silently_skipped _ _ (by
      intro i hi ft hft
      simp only [List.mem_cons, List.not_mem_nil, or_false] at hi
      rcases hi with hi | hi <;> subst hi <;>
        simp only [renameIssue, refactorIssue] at hft <;> cases hft <;> rfl)⟩

/-- C6.  Dry-run invariant: for every input path and every set of detected
issues, the `fix` command without the `--apply` confirmation flag performs no
file write. -/
theorem run_fix_dry_run_no_writes (args : FixArgs) (path_exists : Bool)
    (files : List FileEntry) (h : args.apply = false) :
    (CLI._run_fix args path_exists files).2 = [] := by
  unfold CLI._run_fix
  cases path_exists with
  | false => rfl
  | true =>
    simp only [if_true]
    exact foldl_of_step_fixed _ _ _ (fun f _ w => by
      unfold runFixFile
      cases hf : f.issues.isEmpty <;> simp [h])

/-- A concrete finding with a `replace` fix directive, for the C6 witness. -/
def dryRunIssue : Issue :=
  { rule := "hardcoded_secret"
    message := "m"
    line := 1
    column := 0
    severity := "error"
    fix_type := some "replace"
    suggestion := "s" }

/-- A concrete input file with a fixable finding, for the C6 witness. -/
def dryRunFile : FileEntry :=
  { path := "a.py"
    module := .Module [.Assign 1 0 [.AssignTarget (.Name "password")]
      (.SimpleString "\x22letmein123\x22")]
    issues := [dryRunIssue] }

/-- Witness for C6 at a concrete file with a fixable finding and `--apply`
absent. -/
theorem run_fix_dry_run_no_writes_witness :
    (CLI._run_fix { apply := false } true [dryRunFile]).2 = [] :=
  run_fix_dry_run_no_writes _ _ _ rfl

/-- Helper: the concatenated rendering of a list of issues, head first. -/
def joinRender : List Issue → String
  | [] => ""
  | i :: rest => renderIssue i ++ joinRender rest

/-- Helper: `joinRender` distributes over list append. -/
theorem joinRender_append (a b : List Issue) :
    joinRender (a ++ b) = joinRender a ++ joinRender b := by
  induction a with
  | nil => rw [List.nil_append, joinRender, String.empty_append]
  | cons i rest ih =>
    rw [List.cons_append, joinRender, joinRender, ih, String.append_assoc]

/-- Helper: the text report fold equals the concatenated rendering. -/
theorem generate_text_report_eq (issues : List Issue) :
    CLI._generate_text_report issues = joinRender issues := by
  unfold CLI._generate_text_report
  have main : ∀ (l : List Issue) (init : String),
      l.foldl (fun out i => out ++ renderIssue i) init = init ++ joinRender l := by
    intro l
    induction l with
    | nil => intro init; rw [List.foldl_nil, joinRender, String.append_empty]
    | cons i rest ih =>
      intro init
      rw [List.foldl_cons, ih, joinRender, String.append_assoc]
  rw [main issues "", String.empty_append]

/-- C8.  `_run_check` exits with status 0 exactly when the finding list is
empty and with status 1 otherwise, and its output still carries the rendering
of every finding. -/
theorem run_check_exit_and_reports (issues : List Issue) :
    ((CLI._run_check issues).2 = 0 ↔ issues = []) ∧
    (issues ≠ [] → (CLI._run_check issues).2 = 1) ∧
    (∀ i ∈ issues, ∃ pre post,
      (CLI._run_check issues).1 = pre ++ (renderIssue i ++ post)) := by
  refine ⟨?_, ?_, ?_⟩
  · unfold CLI._run_check
    cases issues <;> simp
  · unfold CLI._run_check
    cases issues <;> simp
  · intro i hi
    obtain ⟨l1, l2, rfl⟩ := List.append_of_mem hi
    refine ⟨joinRender l1, joinRender l2, ?_⟩
    show CLI._generate_text_report (l1 ++ i :: l2) = _
    rw [generate_text_report_eq, joinRender_append, joinRender]

/-- A concrete finding, for the C8 witness. -/
def checkIssue : Issue :=
  { rule := "hardcoded_secret"
    message := "m"
    line := 1
    column := 0
    severity := "error"
    suggestion := "s" }

/-- Witness for C8 at a concrete non-empty finding list. -/
theorem run_check_exit_and_reports_witness :
    ((CLI._run_check [checkIssue]).2 = 1) ∧
    (∃ pre post,
      (CLI._run_check [checkIssue]).1 = pre ++ (renderIssue checkIssue ++ post)) :=
  ⟨(run_check_exit_and_reports _).2.1 (by simp),
   (run_check_exit_and_reports _).2.2 _ (List.mem_singleton.mpr rfl)⟩

/-- C7.  `get_suggestion` never fails its caller: under every enumerated
internal error condition (disabled, `requests` unavailable, missing or empty
credential, cache miss with rate limit exceeded, cache miss with a raised
network error, cache miss with a non-200 API response) it returns the local
fallback suggestion string; every fallible step of the source is guarded or
wrapped in `try`/`except`, so the call always returns a string. -/
theorem get_suggestion_error_fallback (env : CopilotEnv) (code_snippet : String)
    (context : List (String × String))
    (h : SuggestionErrorCondition env code_snippet context) :
    CopilotFixer.get_suggestion env code_snippet context =
      _fallback_suggestion code_snippet := by
  unfold CopilotFixer.get_suggestion
  rcases h with h | h | h | ⟨hc, hrest⟩
  · simp [h]
  · cases he : env.enabled <;> simp [he, h]
  · cases he : env.enabled <;> cases hr : env.requests_available <;>
      simp [he, hr, h]
  · rcases hrest with hrate | ⟨e, hpost⟩ | ⟨r, hpost, hs⟩ <;>
      cases he : env.enabled <;> cases hr : env.requests_available <;>
        cases ht : tokenFalsy env.auth_token <;>
          cases hra : env.rate_allow <;> simp_all [beq_iff_eq]

/-- A concrete environment in which every collaborator fails, for the C7
witness: Copilot disabled, no `requests`, no token, cache read raising, rate
limit refusing, network raising. -/
def failingEnv : CopilotEnv :=
  { enabled := false
    requests_available := false
    auth_token := none
    cache_read := fun _ => .error "cache file unreadable"
    now := 0
    rate_allow := false
    post := fun _ => .error "connection refused" }

/-- Witness for C7: in the all-failing environment the call still returns the
local fallback string (here the environment-variable rewrite, since the
snippet's first line matches the password pattern). -/
theorem get_suggestion_error_fallback_witness :
    SuggestionErrorCondition failingEnv "password = \x27letmein123\x27" [] ∧
    CopilotFixer.get_suggestion failingEnv "password = \x27letmein123\x27" [] =
      "import os\npassword = os.getenv(\x27DB_PASSWORD\x27)" :=
  ⟨Or.inl rfl,
    (get_suggestion_error_fallback failingEnv _ [] (Or.inl rfl)).trans (by decide)⟩

/-- The tree `password = "a"`, whose single assignment is the target of both
overlapping directives below. -/
def overlapTree : Node :=
  .Module [.Assign 1 0 [.AssignTarget (.Name "password")] (.SimpleString "\x22a\x22")]

/-- The node targeted by both overlapping directives: the assignment of
`overlapTree`, so the two target spans are identical (maximal overlap). -/
def overlapTargetNode : Node :=
  .Assign 1 0 [.AssignTarget (.Name "password")] (.SimpleString "\x22a\x22")

/-- First directive in document order: a remove targeting the assignment,
with the fix type spelled so that `_fix_remove_node` resolves. -/
def firstRemoveDirective : Issue :=
  { rule := "first_rule"
    message := "remove the assignment"
    line := 1
    column := 0
    severity := "error"
    fix_type := some "remove_node"
    suggestion := "s1"
    node := some overlapTargetNode }

/-- Second directive in document order: a replace targeting the same span,
with the fix type spelled so that `_fix_replace_node` resolves. -/
def secondReplaceDirective : Issue :=
  { rule := "second_rule"
    message := "replace the assignment"
    line := 1
    column := 0
    severity := "error"
    fix_type := some "replace_node"
    suggestion := "s2"
    node := some overlapTargetNode }

/-- The same two overlapping directives with the fix-type spellings the
repository's rules actually emit (`remove`, `replace`). -/
def firstRemoveRuleKind : Issue :=
  { firstRemoveDirective with fix_type := some "remove" }

/-- Companion of `firstRemoveRuleKind` for the second directive. -/
def secondReplaceRuleKind : Issue :=
  { secondReplaceDirective with fix_type := some "replace" }

/-- C1 fails on the code: `apply_fixes` performs no conflict detection at all.
With method-resolvable fix types, BOTH overlapping directives are dispatched
and recorded in `self.changes` — the second one is applied, not skipped — and
nothing is printed; with the fix types the rules actually emit, neither
directive is dispatched and still nothing is surfaced: in no case is the
second overlapping directive reported to the caller as a skipped conflict. -/
theorem conflict_policy_not_implemented :
    (CodeFixer.mk overlapTree []).apply_fixes
        [firstRemoveDirective, secondReplaceDirective] =
      (CodeFixer.mk overlapTree [firstRemoveDirective, secondReplaceDirective],
        []) ∧
    (CodeFixer.mk overlapTree []).apply_fixes
        [firstRemoveRuleKind, secondReplaceRuleKind] =
      (CodeFixer.mk overlapTree [], []) :=
  ⟨rfl, rfl⟩

/-- Scenario B input `import os\nx = 1` as a tree: the import on line 1, the
assignment on line 2. -/
def scenarioB : Node :=
  .Module [.Import 1 0 [.ImportAlias (.Name "os") none],
    .Assign 2 0 [.AssignTarget (.Name "x")] (.Integer "1")]

/-- C2 fails on the code: `UnusedImportRule` collects every `Name` node of
the whole tree as a used name — including the `Name os` inside the import
statement itself — so the never-referenced import is counted as used and NO
finding is produced; and an apply pass (over the empty finding list, or any
other) leaves the tree with its two original lines, line 1 still
`import os`. -/
theorem scenario_b_unused_import_not_detected :
    UnusedImportRule.apply scenarioB = [] ∧
    (findall scenarioB isNameNode).map nameValueOf = ["os", "x"] ∧
    ((CodeFixer.mk scenarioB []).apply_fixes
      (UnusedImportRule.apply scenarioB)).1.module = scenarioB ∧
    moduleLines ((CodeFixer.mk scenarioB []).apply_fixes
      (UnusedImportRule.apply scenarioB)).1.module = ["import os", "x = 1"] :=
  ⟨rfl, rfl, rfl, by decide⟩

/-- Scenario A input `password = "letmein123"` as a tree. -/
def scenarioA : Node :=
  .Module [.Assign 1 0 [.AssignTarget (.Name "password")]
    (.SimpleString "\x22letmein123\x22")]

/-- The finding `HardcodedSecretRule.apply` produces for scenario A. -/
def scenarioAFinding : Issue :=
  { rule := "hardcoded_secret"
    message := "Hardcoded secret detected in password"
    line := 1
    column := 0
    severity := "error"
    fix_type := some "replace"
    suggestion := "Use environment variables instead (os.getenv)"
    node := some (.Assign 1 0 [.AssignTarget (.Name "password")]
      (.SimpleString "\x22letmein123\x22")) }

/-- C3 half-holds and half-fails on the code: the rule does produce the
claimed Finding (rule `hardcoded_secret`, severity `error`, fix type
`replace`), but the apply pass leaves the module untouched (the fix type
`replace` resolves to no `_fix_*` method and every handler is a stub), so the
affected line still contains the string literal and no environment-variable
lookup. -/
theorem scenario_a_secret_found_but_not_replaced :
    HardcodedSecretRule.apply scenarioA = [scenarioAFinding] ∧
    (CodeFixer.mk scenarioA []).apply_fixes
        (HardcodedSecretRule.apply scenarioA) =
      (CodeFixer.mk scenarioA [], []) ∧
    pyIn "letmein123" (moduleCode ((CodeFixer.mk scenarioA []).apply_fixes
      (HardcodedSecretRule.apply scenarioA)).1.module) = true ∧
    pyIn "os.getenv" (moduleCode ((CodeFixer.mk scenarioA []).apply_fixes
      (HardcodedSecretRule.apply scenarioA)).1.module) = false :=
  ⟨rfl, rfl, by decide, by decide⟩

/-- A registered rule set of two configured rules, both carrying a
`node_type` entry, as `RuleEngine._load_rules` would produce from
`codepolice.yaml`. -/
def twoConfiguredRules : List (String × RuleCfg) :=
  [("hardcoded_secret", { node_type := some "Assign", message := "Hardcoded secret" }),
   ("unused_import", { node_type := some "Import", message := "Unused import" })]

/-- C4 fails on the code: `RuleEngine.apply_rules` wraps nothing in
`try`/`except`, so the `NameError` raised by line 41 (the unbound name `cst`)
while processing the FIRST rule propagates to the caller and the second rule
never runs — no diagnostic, no fail-soft continuation.  (Only a rule set in
which every entry lacks a `node_type` key avoids the error, vacuously.) -/
theorem rule_failure_propagates_uncaught :
    RuleEngine.apply_rules (.Module []) twoConfiguredRules =
      .error (.nameError "cst") ∧
    RuleEngine.apply_rules (.Module []) [("no_node_type_rule", {})] = .ok [] :=
  ⟨rfl, rfl⟩

end CodePolice
